import Mathlib

/-!
Verification of the BoltzmannEqs repository (pyCode) against its
natural-language specification.

The repository contains two mutually exclusive right-hand-side
formulations of the Boltzmann network:

* `pyCode/boltzSolver.py` (class `BoltzSolution`) — the live,
  scipy-based driver imported by both examples;
* `pyCode/boltzEqs.py` (class `BoltzEqs`) — a legacy, assimulo-based
  formulation (its imports `parameters` and `assimulo` are not part of
  the repository).

Both are embedded below where claims touch them.  External
collaborators (the thermodynamic tables gSTAR/gSTARS/Tfunc, the
caller-supplied cross-section and decay-table functions, and the scipy
special functions inside nEQ/rEQ) are treated as parameters of the
embedding, exactly as the source consumes them as black boxes.
Machine floats are modelled by real numbers except where a claim is
specifically about IEEE special values (NaN/inf), which are modelled
by the inductive type `FloatVal` below.
-/

namespace BoltzmannEqs

noncomputable section

open Real

/-- Planck mass constant, `MP = 1.22*10**19` (AuxFuncs.Hfunc, component.py). -/
def MP : ℝ := 1.22e19

/-! ## AuxFuncs.getPressure (AuxFuncs.py lines 301-315) -/

/-- Expansion coefficients for the relativistic/non-relativistic
transition, AuxFuncs.py line 309. -/
def aV : List ℝ :=
  [-0.345998, 0.234319, -0.0953434, 0.023657, -0.00360707, 0.000329645,
   -0.0000165549, 3.51085e-7]

/-- AuxFuncs.getPressure (lines 301-315): pressure of a component given
its mass, energy density and number density. -/
def getPressure (mass rho n : ℝ) : ℝ :=
  let R := rho / n
  if R > 11.5 * mass then n * (R / 3)      -- Ultra relativistic limit
  else if R ≤ mass then 0                  -- Ultra non-relativistic limit
  else
    let Prel := n * (R / 3)
    let Pnonrel :=
      ((2 * mass / 3) * (R / mass - 1)
        + mass * (aV.enum.map (fun p => p.2 * (R / mass - 1) ^ (p.1 + 2))).sum) * n
    min Prel Pnonrel

/-- The non-relativistic branch estimate as the claim states it: the
published coefficients applied to powers of (R/mass - 1), on top of the
leading (2*mass/3)*(R/mass - 1) term, times n.  (Spec-side definition,
to be compared with the source-side `getPressure`.) -/
def nonRelEstimateClaim (mass R n : ℝ) : ℝ :=
  n * ((2 * mass / 3) * (R / mass - 1)
    + mass * ((-0.345998) * (R / mass - 1) ^ 2
      + 0.234319 * (R / mass - 1) ^ 3
      + (-0.0953434) * (R / mass - 1) ^ 4
      + 0.023657 * (R / mass - 1) ^ 5
      + (-0.00360707) * (R / mass - 1) ^ 6
      + 0.000329645 * (R / mass - 1) ^ 7
      + (-0.0000165549) * (R / mass - 1) ^ 8
      + 3.51085e-7 * (R / mass - 1) ^ 9))

/-! ## Non-finite value handling (claim C3)

IEEE special values are modelled by an inductive type; `isinf` and
`nan_to_num` follow numpy semantics (np.isinf is false on NaN;
np.nan_to_num maps NaN to 0 and plus/minus infinity to plus/minus the
largest double, 1.7976931348623157e308). -/

/-- Model of a double-precision value: a finite real, an infinity, or NaN. -/
inductive FloatVal
  | num (q : ℝ)
  | inf
  | neginf
  | nan

/-- np.isinf: true exactly on the two infinities (false on NaN). -/
def FloatVal.isinf : FloatVal → Bool
  | .inf => true
  | .neginf => true
  | _ => false

/-- math.isnan(val) or abs(val) == float(inf) — the non-finite test of
boltzEqs.rhs lines 149 and 151. -/
def FloatVal.nonfinite : FloatVal → Bool
  | .num _ => false
  | _ => true

/-- Largest finite double, the value np.nan_to_num substitutes for infinity. -/
def MAXFLOAT : ℝ := 1.7976931348623157e308

/-- np.nan_to_num: NaN becomes 0, infinities become the largest double. -/
def nan_to_num : FloatVal → FloatVal
  | .num q => .num q
  | .inf => .num MAXFLOAT
  | .neginf => .num (-MAXFLOAT)
  | .nan => .num 0

/-- boltzSolver.rhs lines 273-275: the entropy derivative is replaced by
np.nan_to_num only when np.isinf reports an infinity (NaN passes). -/
def dNSreturned (dNS : FloatVal) : FloatVal :=
  if dNS.isinf then nan_to_num dNS else dNS

/-- boltzSolver.rhs line 335: dy = np.hstack((dN, dR, [dNS])) — the dN
and dR entries are assembled into the returned vector unchecked. -/
def rhsReturnSolver (dN dR : List FloatVal) (dNS : FloatVal) : List FloatVal :=
  dN ++ dR ++ [dNSreturned dNS]

/-- boltzEqs.rhs lines 147-155: the big-error flag (1 when the state y
holds a non-finite value, 2 when the derivative vector does); it is only
logged as a warning. -/
def eqsBigError (y dvec : List FloatVal) : ℕ :=
  if y.any FloatVal.nonfinite then 1
  else if dvec.any FloatVal.nonfinite then 2
  else 0

/-- boltzEqs.rhs line 157: the returned vector numpy.array(dN + dR + [dNS])
is the computed derivative vector, unmodified by the big-error check. -/
def rhsReturnEqs (dN dR : List FloatVal) (dNS : FloatVal) : List FloatVal :=
  dN ++ dR ++ [dNS]

/-! ## Events and event handling (claim C4) -/

/-- boltzSolver.BoltzSolution.__init__ lines 40-44: the suppression event
function fSuppressed for component icomp; it consults only the active
flag and the component's log-density variable, never its width. -/
def fSuppressed (active : Bool) (yi : ℝ) : ℝ :=
  if active then yi + 100 else 1

/-- Mutable lifecycle state of a component as touched by event handling
(component.py attributes Tdecay/Tosc/Tdecouple/active/thermalEQ, plus
the width function the component was constructed with). -/
structure CompEvolState where
  Tdecay : Option ℝ
  Tosc : Option ℝ
  Tdecouple : Option ℝ
  active : Bool
  thermalEQ : Bool
  widthFn : ℝ → ℝ

/-- The value of the solver's suppression event for a component: width
is not consulted (boltzSolver lines 40-44). -/
def solverDecayEventValue (c : CompEvolState) (yi : ℝ) : ℝ :=
  fSuppressed c.active yi

/-- boltzSolver.EvolveTo lines 180-183: when an even-indexed
(suppression) event fired, the component records Tdecay = T and is
deactivated. -/
def handleSuppressedEvent (c : CompEvolState) (Tlast : ℝ) : CompEvolState :=
  { c with Tdecay := some Tlast, active := false }

/-- boltzSolver.EvolveTo lines 176-179: when an odd-indexed
(equilibrium-departure) event fired, the component records
Tdecouple = T and leaves thermal equilibrium. -/
def handleEquilibriumEvent (c : CompEvolState) (Tlast : ℝ) : CompEvolState :=
  { c with Tdecouple := some Tlast, thermalEQ := false }

/-- boltzEqs.state_events lines 189-191: the decay transition slot stays
at the constant 1 (no zero crossing) when the component's width
vanishes at the current temperature or the component is switched off;
otherwise it is 2*y_i + 200. -/
def eqsDecayTransition (widthT : ℝ) (sw : Bool) (yi : ℝ) : ℝ :=
  if widthT = 0 ∨ sw = false then 1 else 2 * yi + 200

/-- A component constructed with identically vanishing width, still
active and with no transition temperatures recorded. -/
def zeroWidthComp : CompEvolState :=
  ⟨none, none, none, true, true, fun _ => 0⟩

/-! ## Trajectory storage (claim C7) -/

/-- np.linspace as called in EvolveTo line 151: npoints evenly spaced
values from x0 to xf inclusive. -/
def linspace (x0 xf : ℝ) (npoints : ℕ) : List ℝ :=
  (List.range npoints).map (fun i => x0 + (xf - x0) * i / ((npoints : ℝ) - 1))

/-- updateSolution line 434: the segment's t-values are appended to the
stored x trajectory. -/
def updateX (xs ts : List ℝ) : List ℝ := xs ++ ts

/-- updateSolution line 436: the scale-factor values np.exp(r.t) are
appended to the stored R trajectory. -/
def updateR (Rs ts : List ℝ) : List ℝ := Rs ++ ts.map Real.exp

/-! ## Annihilation terms of the two rhs formulations (claim C5) -/

/-- Modelled from the spec: the constant Zeta3 of the missing
`parameters` module imported by boltzEqs.py.  component.py (in the
repository) defines the same constant as zetac(3.) + 1, i.e. Apery's
constant zeta(3); the spec calls Zeta3*T^3/Pi^2 the relativistic
equilibrium density. -/
def Zeta3 : ℝ := tsum (fun n : ℕ => 1 / ((n : ℝ) + 1) ^ 3)

/-- boltzEqs.rhs lines 116-119: the direct self-annihilation
contribution to the number-density equation; the weakthermal kind gets
the linearized form through the relativistic density
nrel = Zeta3*T^3/Pi^2, every other kind the quadratic form. -/
def annTermEqs (ctype : String) (sigv T neq n H : ℝ) : ℝ :=
  if ctype = "weakthermal" then sigv * (Zeta3 * T ^ 3 / Real.pi ^ 2) * (neq - n) / H
  else sigv * (neq ^ 2 - n ^ 2) / H

/-- boltzSolver.rhs line 289: the direct self-annihilation contribution
sigmaV*(neq - n)*(neq + n)/H, applied uniformly with no branch on the
component kind. -/
def annTermSolver (sigmaV neq n H : ℝ) : ℝ :=
  sigmaV * (neq - n) * (neq + n) / H

/-! ## The Component class (claims C8 and C10) -/

/-- Modelled from the spec: the decay table of the AuxDecays module,
which is not part of the repository.  Per the spec it carries the total
width, the fraction of energy injected into the bath (Xfraction), and a
list of channels, each with a branching fraction and final-state
labels; this matches every use component.py makes of it. -/
structure Decay where
  br : ℝ
  fstateIDs : List String

/-- Modelled from the spec: see `Decay`. -/
structure DecayList where
  width : ℝ
  Xfraction : ℝ
  decays : List Decay

instance : Inhabited DecayList := ⟨⟨0, 0, []⟩⟩

/-- The mass argument of Component.__init__: a function of temperature,
an int, a float, or anything else (component.py lines 63-70 test
FunctionType, int, float in that order). -/
inductive MassArg where
  | func (f : ℝ → ℝ)
  | intVal (z : ℤ)
  | floatVal (q : ℝ)
  | other

/-- component.py lines 64-67: the accepted mass arguments, as the mass
function they are turned into. -/
def MassArg.toFun? : MassArg → Option (ℝ → ℝ)
  | .func f => some f
  | .intVal z => some (fun _ => (z : ℝ))
  | .floatVal q => some (fun _ => q)
  | .other => none

/-- The decays argument of Component.__init__ (lines 72-79): a function
of temperature, a DecayList, or anything else. -/
inductive DecaysArg where
  | func (f : ℝ → DecayList)
  | decayList (d : DecayList)
  | other

/-- component.py lines 73-76: the accepted decays arguments, as the
decay-table function they are turned into. -/
def DecaysArg.toFun? : DecaysArg → Option (ℝ → DecayList)
  | .func f => some f
  | .decayList d => some (fun _ => d)
  | .other => none

/-- component.py line 24: the recognized component kinds. -/
def Types : List String := ["thermal", "CO", "weakthermal"]

/-- component.py Component: the fields set by a successful __init__.
The source field `Type` is called `ctype` here (`Type` is reserved in
Lean); the caller-supplied pairwise rate functions (coSigmav,
convertionRate, sigmavBSM), which take the partner component as second
argument and play no role in the construction-time validation, are
omitted. -/
structure Component where
  label : String
  ctype : String
  active : Bool
  dof : ℤ
  Tdecay : Option ℝ
  Tosc : Option ℝ
  Tdecouple : Option ℝ
  sigmav : ℝ → ℝ
  source : ℝ → ℝ
  coherentAmplitude : ℝ → ℝ
  mass : ℝ → ℝ
  decays : ℝ → DecayList

/-- The configuration failure of Component.__init__.  In Python each
invalid-argument branch logs an error and executes `return False`; a
non-None return from __init__ makes object construction raise
TypeError, so no usable instance is produced. -/
inductive ConfigError where
  | configError

/-- Component.__init__ (component.py lines 41-79): validation of the
kind (line 59: `not Type or type(Type) != str or Type not in Types`,
which for a string argument reduces to membership in Types, since the
empty string is not in Types), then of the mass argument, then of the
decays argument.  The parameter spelling coherentAmplitute follows the
source. -/
def Component.init (label ctype : String) (dof : ℤ) (mass : MassArg)
    (decays : DecaysArg) (sigmav src coherentAmplitute : ℝ → ℝ) :
    Except ConfigError Component :=
  if ctype ∈ Types then
    match mass.toFun? with
    | none => .error .configError
    | some mf =>
      match decays.toFun? with
      | none => .error .configError
      | some df =>
        .ok { label := label, ctype := ctype, active := true, dof := dof,
              Tdecay := none, Tosc := none, Tdecouple := none,
              sigmav := sigmav, source := src,
              coherentAmplitude := coherentAmplitute,
              mass := mf, decays := df }
  else .error .configError

/-- component.py lines 99-104: the width is read off the decay table. -/
def Component.width (c : Component) (T : ℝ) : ℝ := (c.decays T).width

/-- component.py lines 92-97: fraction of energy injected in the bath. -/
def Component.getBRX (c : Component) (T : ℝ) : ℝ := (c.decays T).Xfraction

/-- component.py lines 310-313: hasDecayed returns False
unconditionally (the body is `return False` with a FIX annotation). -/
def Component.hasDecayed (_c : Component) : Bool := false

/-! ## printData / getDataFrom round trip (claim C9) -/

/-- Char-list prefix test (auxiliary for the substring test below). -/
def startsWithChars : List Char → List Char → Bool
  | [], _ => true
  | _ :: _, [] => false
  | a :: pa, b :: pb => a == b && startsWithChars pa pb

/-- Substring test on char lists: models the Python expression
`pat in data`.  Since the patterns of interest contain no newline, a
match in the whole file text is a match inside one line, so the file
test below may scan line by line. -/
def containsChars (pat : List Char) : List Char → Bool
  | [] => pat.isEmpty
  | b :: rest => startsWithChars pat (b :: rest) || containsChars pat rest

/-- String-level substring test. -/
def lineContains (pat line : String) : Bool :=
  containsChars pat.toList line.toList

/-- Whether any line of the file contains the pattern (Python:
`pat in data` with data = f.read()). -/
def fileContains (pat : String) (lines : List String) : Bool :=
  lines.any (fun l => lineContains pat l)

/-- BoltzSolution.printData (boltzSolver.py lines 530-533): a separator
line, the np.savetxt header line (the joined column labels prefixed by
the comment character; the str.center space padding is elided, being
whitespace), the data rows, and a closing separator.  No line carries a
'Header' marker. -/
def solverPrintDataLines (headerLabels : List String) (rows : List String) : List String :=
  ["#--------------", "# " ++ String.intercalate " " headerLabels]
    ++ rows ++ ["#--------------"]

/-- AuxFuncs.printData (legacy, AuxFuncs.py lines 98-114): separator,
the literal marker line '# Header:', the joined column labels, the data
rows, and a closing separator. -/
def legacyPrintDataLines (headerLabels : List String) (rows : List String) : List String :=
  ["#-------------", "# Header:", "# " ++ String.intercalate " " headerLabels]
    ++ rows ++ ["#-------------"]

/-- AuxFuncs.getDataFrom, data block (lines 168-190): dataDict starts
empty and the block is parsed only when the file contains 'Header';
the parsing of the block under the test is abstracted as the function
argument, which never runs when the marker is absent. -/
def getDataFromDataBlock (lines : List String)
    (parse : List String → List (String × List ℝ)) : List (String × List ℝ) :=
  if fileContains "Header" lines then parse lines else []

/-- A parser returning a nonempty reconstruction for any file: used to
exhibit that the empty result below comes from the marker test, not
from the parser. -/
def anyParse : List String → List (String × List ℝ) :=
  fun ls => [("lines", [(ls.length : ℝ)])]

/-! ## The right-hand side of BoltzSolution.rhs (claims C1 and C2)

BoltzSolution.rhs (boltzSolver.py lines 196-338) is embedded through
the structure `RHSInput`, which collects the state slices of y together
with the values the component methods and the external thermodynamic
tables return at the current temperature (cross sections, decay tables
and Bessel-function equilibrium densities are caller-supplied or
scipy-computed black boxes, consumed by rhs exactly as such); the
masking applied inside rhs itself (the `if ... else 0.` guards of lines
241, 258, 261, 291, 295, 299) is part of the embedding.  The dR block
(lines 313-333) skips inactive components explicitly on both indices
and is not needed by the claims. -/

/-- AuxFuncs.Hfunc (lines 243-257): the Hubble rate
sqrt(8*pi*rhoTot/3)/MP where rhoTot sums the active components' energy
densities and the radiation bath (pi^2/30)*gSTAR(T)*T^4. -/
def Hfunc {m : ℕ} (gSTAR : ℝ → ℝ) (T : ℝ) (rhov : Fin m → ℝ) (sw : Fin m → Bool) : ℝ :=
  Real.sqrt (8 * Real.pi * ((∑ i, if sw i then rhov i else 0)
    + (Real.pi ^ 2 / 30) * gSTAR T * T ^ 4) / 3) / MP

/-- The arguments of one evaluation of BoltzSolution.rhs at a point
(x, y): the per-segment constants, the slices of y, and the values
returned at the current temperature by the external tables and the
component methods (before the masking rhs applies to them). -/
structure RHSInput (m : ℕ) where
  /-- self.active (line 205). -/
  isActive : Fin m → Bool
  /-- Line 232: not comp.Tdecouple. -/
  coupled : Fin m → Bool
  /-- self.norm, the per-segment normalization n_i0. -/
  norm : Fin m → ℝ
  /-- y[:nComp], the log-density variables (line 212). -/
  Ni : Fin m → ℝ
  /-- y[nComp:2*nComp], the rho_i/n_i variables (line 214). -/
  Ri : Fin m → ℝ
  /-- The independent variable x = log(R/R0). -/
  x : ℝ
  /-- y[-1], NS = log(S/S0) (line 216). -/
  NS : ℝ
  /-- self.normS, the entropy normalization. -/
  normS : ℝ
  /-- The temperature getTemperature(x, NS, normS) of line 219,
  delegated to the external thermodynamic table. -/
  T : ℝ
  /-- The external g*(T) table consumed by Hfunc. -/
  gSTAR : ℝ → ℝ
  /-- self.nEQ(T) (line 228). -/
  neq : Fin m → ℝ
  /-- self.rEQ(T) (line 229). -/
  rEQ : Fin m → ℝ
  /-- self.width(T) (line 265). -/
  widths : Fin m → ℝ
  /-- self.mass(T) (line 266). -/
  masses : Fin m → ℝ
  /-- self.getBRX(T) (line 267). -/
  BRX : Fin m → ℝ
  /-- self.getSIGV(T) (line 268). -/
  sigmaV : Fin m → ℝ
  /-- self.getNXTh(T, n, rNeq, labelsDict) (line 256): the effective
  thermal densities N_i^th.  Inside getNXTh every factor coming from a
  decay product j is multiplied by rNeq[i, j], which line 241 zeroes
  for inactive j, so these values carry no dependence on inactive
  components' state. -/
  NXth : Fin m → ℝ
  /-- compi.rNeq(T, compj), before the active-mask of line 241. -/
  rNeq0 : Fin m → Fin m → ℝ
  /-- compi.getCOSIGV(T, compj), before the mask of line 291. -/
  sigVij0 : Fin m → Fin m → ℝ
  /-- compi.getSIGVBSM(T, compj), before the mask of line 295. -/
  sigVjj0 : Fin m → Fin m → ℝ
  /-- compi.getConvertionRate(T, compj), before the mask of line 299. -/
  cRate0 : Fin m → Fin m → ℝ
  /-- compi.getTotalBRTo(T, compj), before the mask of line 261. -/
  Beff0 : Fin m → Fin m → ℝ
  /-- compi.getNXYTh(T, n, rNeq, labelsDict, compj), before the mask of
  line 258. -/
  NXYth0 : Fin m → Fin m → ℝ

/-- Line 223: the number densities n = self.norm*np.exp(Ni) before the
equilibrium forcing. -/
def RHSInput.nUnforced {m : ℕ} (inp : RHSInput m) (i : Fin m) : ℝ :=
  inp.norm i * Real.exp (inp.Ni i)

/-- Line 233: Ri forced to rEQ for coupled components. -/
def RHSInput.RiEff {m : ℕ} (inp : RHSInput m) (i : Fin m) : ℝ :=
  if inp.coupled i then inp.rEQ i else inp.Ri i

/-- Lines 223 and 235: n forced to neq for coupled components. -/
def RHSInput.nEff {m : ℕ} (inp : RHSInput m) (i : Fin m) : ℝ :=
  if inp.coupled i then inp.neq i else inp.nUnforced i

/-- Lines 225 and 236: rho = n*Ri, forced to neq*rEQ for coupled
components. -/
def RHSInput.rhoEff {m : ℕ} (inp : RHSInput m) (i : Fin m) : ℝ :=
  if inp.coupled i then inp.neq i * inp.rEQ i else inp.nUnforced i * inp.Ri i

/-- Line 241: rNeq[i, j], zero unless both components are active. -/
def RHSInput.rNeqM {m : ℕ} (inp : RHSInput m) (i j : Fin m) : ℝ :=
  if inp.isActive i ∧ inp.isActive j then inp.rNeq0 i j else 0

/-- Line 258: NXYth[i, j], zero when j = i or j is inactive. -/
def RHSInput.NXYthM {m : ℕ} (inp : RHSInput m) (i j : Fin m) : ℝ :=
  if i ≠ j ∧ inp.isActive j then inp.NXYth0 i j else 0

/-- Line 261: Beff[i, j], zero when j = i or j is inactive. -/
def RHSInput.BeffM {m : ℕ} (inp : RHSInput m) (i j : Fin m) : ℝ :=
  if i ≠ j ∧ inp.isActive j then inp.Beff0 i j else 0

/-- Line 291: sigVij[i][j], zero when j = i or j is inactive. -/
def RHSInput.sigVijM {m : ℕ} (inp : RHSInput m) (i j : Fin m) : ℝ :=
  if i ≠ j ∧ inp.isActive j then inp.sigVij0 i j else 0

/-- Line 295: sigVjj[i][j], zero when j = i or j is inactive. -/
def RHSInput.sigVjjM {m : ℕ} (inp : RHSInput m) (i j : Fin m) : ℝ :=
  if i ≠ j ∧ inp.isActive j then inp.sigVjj0 i j else 0

/-- Line 299: cRate[i][j], zero when j = i or j is inactive. -/
def RHSInput.cRateM {m : ℕ} (inp : RHSInput m) (i j : Fin m) : ℝ :=
  if i ≠ j ∧ inp.isActive j then inp.cRate0 i j else 0

/-- Line 248: H = Hfunc(T, rho, isActive). -/
def RHSInput.H {m : ℕ} (inp : RHSInput m) : ℝ :=
  Hfunc inp.gSTAR inp.T inp.rhoEff inp.isActive

/-- Line 272: the entropy derivative
dNS = np.sum(isActive*BRX*widths*masses*(n - NXth))*exp(3x - NS)/(H*T*normS)
(the numpy boolean factor isActive is the 0/1 indicator).  Over the
reals the isinf guard of lines 273-275 never fires; its effect on IEEE
values is modelled separately by `dNSreturned`. -/
def RHSInput.dNS {m : ℕ} (inp : RHSInput m) : ℝ :=
  (∑ i, (if inp.isActive i then (1:ℝ) else 0) * inp.BRX i * inp.widths i
      * inp.masses i * (inp.nEff i - inp.NXth i))
    * Real.exp (3 * inp.x - inp.NS) / (inp.H * inp.T * inp.normS)

/-- Lines 283-303: the accumulated right-hand side for the number
density of component i — dilution, decay, inverse decay, direct
annihilation, co-annihilation, 2-to-2 scattering, conversion, and the
decay/inverse-decay injection from every other component j (the two
einsum terms of line 303, whose source index j carries no active
mask). -/
def RHSInput.RHS_N {m : ℕ} (inp : RHSInput m) (i : Fin m) : ℝ :=
  -3 * inp.nEff i
  - inp.widths i * inp.masses i * inp.nEff i / (inp.H * inp.RiEff i)
  + inp.widths i * inp.masses i * inp.NXth i / (inp.H * inp.RiEff i)
  + inp.sigmaV i * (inp.neq i - inp.nEff i) * (inp.neq i + inp.nEff i) / inp.H
  + (∑ j, inp.sigVijM i j * (inp.neq i * inp.neq j - inp.nEff i * inp.nEff j)) / inp.H
  + ((∑ j, inp.rNeqM i j ^ 2 * inp.nEff j ^ 2 * inp.sigVjjM i j)
      - inp.nEff i ^ 2 * ∑ j, inp.sigVjjM i j) / inp.H
  + ((∑ j, inp.rNeqM i j * inp.nEff j * inp.cRateM i j)
      - inp.nEff i * ∑ j, inp.cRateM i j) / inp.H
  + ((∑ j, inp.BeffM j i * (inp.masses j / inp.RiEff j) * inp.widths j * inp.nEff j)
      - ∑ j, inp.BeffM j i * (inp.masses j / inp.RiEff j) * inp.widths j * inp.NXYthM j i)
    / inp.H

/-- Lines 309-311: dN = RHS/n where the component is active (zero
elsewhere), overridden by the thermal-distribution approximation for
coupled components. -/
def RHSInput.dN {m : ℕ} (inp : RHSInput m) (i : Fin m) : ℝ :=
  if inp.coupled i then (inp.dNS / (3 * inp.T) - 1 / inp.T) * inp.RiEff i
  else if inp.isActive i then inp.RHS_N i / inp.nEff i
  else 0

/-- A one-component rhs input with vanishing width (used to witness
entropy conservation): active, decoupled, unit normalizations. -/
def C1inp : RHSInput 1 :=
  { isActive := fun _ => true
    coupled := fun _ => false
    norm := fun _ => 1
    Ni := fun _ => 0
    Ri := fun _ => 1
    x := 0
    NS := 0
    normS := 1
    T := 1
    gSTAR := fun _ => 0
    neq := fun _ => 0
    rEQ := fun _ => 1
    widths := fun _ => 0
    masses := fun _ => 1
    BRX := fun _ => 1
    sigmaV := fun _ => 0
    NXth := fun _ => 0
    rNeq0 := fun _ _ => 0
    sigVij0 := fun _ _ => 0
    sigVjj0 := fun _ _ => 0
    cRate0 := fun _ _ => 0
    Beff0 := fun _ _ => 0
    NXYth0 := fun _ _ => 0 }

/-- A two-component rhs input: component 0 active, component 1 INACTIVE
with width 1, mass 1, R_1 = 1 and total branching Beff0[1][0] = 1 into
component 0; all cross sections vanish and component 0 has no decays
(so NXth and NXYth0 vanish, consistently with their defining formulas
at these inputs).  The parameter v is the log-density variable Ni[1] of
the inactive component — the only place the two states compared in the
claim-C2 theorem differ. -/
def injInput (v : ℝ) : RHSInput 2 :=
  { isActive := ![true, false]
    coupled := ![false, false]
    norm := ![1, 1]
    Ni := ![0, v]
    Ri := ![1, 1]
    x := 0
    NS := 0
    normS := 1
    T := 1
    gSTAR := fun _ => 0
    neq := ![0, 0]
    rEQ := ![1, 1]
    widths := ![0, 1]
    masses := ![1, 1]
    BRX := ![0, 0]
    sigmaV := ![0, 0]
    NXth := ![0, 0]
    rNeq0 := fun _ _ => 0
    sigVij0 := fun _ _ => 0
    sigVjj0 := fun _ _ => 0
    cRate0 := fun _ _ => 0
    Beff0 := ![![0, 0], ![1, 0]]
    NXYth0 := fun _ _ => 0 }

end

/-- C6: getPressure is the three-regime interpolation stated in the
claim: n*(R/3) when R > 11.5*mass, zero when R <= mass, otherwise the
minimum of the relativistic estimate n*(R/3) and the non-relativistic
coefficient-polynomial estimate. -/
theorem C6_getPressure_three_regimes (mass rho n : ℝ)
    (hm : 0 < mass) (hn : 0 < n) :
    (rho / n > 11.5 * mass → getPressure mass rho n = n * (rho / n / 3)) ∧
    (rho / n ≤ mass → getPressure mass rho n = 0) ∧
    (mass < rho / n → rho / n ≤ 11.5 * mass →
      getPressure mass rho n
        = min (n * (rho / n / 3)) (nonRelEstimateClaim mass (rho / n) n)) := by
  refine ⟨fun h => ?_, fun h => ?_, fun h1 h2 => ?_⟩
  · rw [getPressure, if_pos h]
  · rw [getPressure, if_neg (by nlinarith), if_pos h]
  · rw [getPressure, if_neg (by linarith), if_neg (by linarith)]
    simp only [aV, List.enum, List.enumFrom, List.map, List.sum_cons, List.sum_nil,
      nonRelEstimateClaim]
    ring_nf

/-- Witness for C6 at mass = 1, rho = 2, n = 1 (the intermediate regime). -/
theorem C6_getPressure_three_regimes_witness :
    (0:ℝ) < 1 ∧ (0:ℝ) < 1 ∧
    (((2:ℝ) / 1 > 11.5 * 1 → getPressure 1 2 1 = 1 * (2 / 1 / 3)) ∧
    ((2:ℝ) / 1 ≤ 1 → getPressure 1 2 1 = 0) ∧
    ((1:ℝ) < 2 / 1 → (2:ℝ) / 1 ≤ 11.5 * 1 →
      getPressure 1 2 1
        = min (1 * ((2:ℝ) / 1 / 3)) (nonRelEstimateClaim 1 (2 / 1) 1))) :=
  ⟨by norm_num, by norm_num, C6_getPressure_three_regimes 1 2 1 (by norm_num) (by norm_num)⟩

/-- C3 counterexample: a NaN entry of dN is assembled into the returned
derivative vector unchanged (so the returned vector can contain NaN),
and an infinite dNS is replaced by the largest double, not by zero.
This refutes the claim that every non-finite value is replaced by zero
and that the returned vector never contains NaN or infinity. -/
theorem C3_counterexample :
    rhsReturnSolver [FloatVal.nan] [] (FloatVal.num 0) = [FloatVal.nan, FloatVal.num 0] ∧
    dNSreturned FloatVal.inf = FloatVal.num MAXFLOAT ∧
    FloatVal.num MAXFLOAT ≠ FloatVal.num 0 := by
  refine ⟨rfl, rfl, fun h => ?_⟩
  have h' : MAXFLOAT = 0 := FloatVal.num.inj h
  norm_num [MAXFLOAT] at h'

/-- C3 (amended): only the entropy derivative dNS is checked for
non-finiteness, and only with np.isinf; an infinite dNS is replaced by
plus or minus the largest double (np.nan_to_num), never by zero, while a
NaN dNS and every dN/dR entry are returned unchanged.  The legacy
BoltzEqs.rhs merely logs a warning and returns the vector unmodified. -/
theorem C3_rhs_nonfinite_handling (dN dR : List FloatVal) (d : FloatVal) :
    (rhsReturnSolver dN dR d).take dN.length = dN ∧
    (rhsReturnSolver dN dR d).getLast? = some (dNSreturned d) ∧
    dNSreturned FloatVal.inf = FloatVal.num MAXFLOAT ∧
    dNSreturned FloatVal.neginf = FloatVal.num (-MAXFLOAT) ∧
    dNSreturned FloatVal.nan = FloatVal.nan ∧
    rhsReturnEqs dN dR d = dN ++ dR ++ [d] := by
  refine ⟨?_, ?_, rfl, rfl, rfl, rfl⟩
  · rw [rhsReturnSolver, List.append_assoc, List.take_left]
  · rw [rhsReturnSolver, List.getLast?_concat]

/-- C4 counterexample: for the zero-width component, the solver's
suppression event function reaches zero once the log-density variable
reaches -100 (the event fires; the width is never consulted), and the
handler then records a decay temperature, so Tdecay does not remain
unset. -/
theorem C4_counterexample :
    zeroWidthComp.Tdecay = none ∧
    solverDecayEventValue zeroWidthComp (-100) = 0 ∧
    (handleSuppressedEvent zeroWidthComp 5).Tdecay = some 5 := by
  refine ⟨rfl, ?_, rfl⟩
  norm_num [solverDecayEventValue, fSuppressed, zeroWidthComp]

/-- C4 (amended): in the legacy BoltzEqs.state_events the decay
transition of a component whose width vanishes never crosses zero (the
claim holds there), whereas the live BoltzSolution suppression event
equals y_i + 100 for any active component regardless of its width, so
it fires purely on the density variable and Tdecay is then recorded. -/
theorem C4_decay_event_width_guard (widthT yi : ℝ) (sw : Bool) (c : CompEvolState) :
    (widthT = 0 → eqsDecayTransition widthT sw yi ≠ 0) ∧
    (c.active = true → solverDecayEventValue c yi = yi + 100) := by
  constructor
  · intro h
    rw [eqsDecayTransition, if_pos (Or.inl h)]
    norm_num
  · intro h
    rw [solverDecayEventValue, fSuppressed, h, if_pos rfl]

/-- Witness for C4 (amended) at widthT = 0, yi = -100, the zero-width
component. -/
theorem C4_decay_event_width_guard_witness :
    (0:ℝ) = 0 ∧ zeroWidthComp.active = true ∧
    (eqsDecayTransition 0 true (-100) ≠ 0 ∧
     solverDecayEventValue zeroWidthComp (-100) = -100 + 100) :=
  ⟨rfl, rfl,
    (C4_decay_event_width_guard 0 (-100) true zeroWidthComp).1 rfl,
    (C4_decay_event_width_guard 0 (-100) true zeroWidthComp).2 rfl⟩

/-- C7 counterexample: the very first stored scale-factor value is
R = 1 (BoltzSolution.__init__ line 59) at x = 0, and the first segment's
t-values linspace(x0, xf, npoints) begin at x0 = 0, so updateSolution
appends exp(0) = 1 again: the stored scale-factor sequence is not
strictly increasing. -/
theorem C7_counterexample :
    updateR [(1:ℝ)] (linspace 0 1 2) = [1, 1, Real.exp 1] ∧
    ¬ List.Chain' (· < ·) (updateR [(1:ℝ)] (linspace 0 1 2)) := by
  have h : linspace 0 1 2 = [0, 1] := by
    simp [linspace, List.range_succ]
    norm_num
  have h2 : updateR [(1:ℝ)] (linspace 0 1 2) = [1, 1, Real.exp 1] := by
    rw [h, updateR]
    simp [Real.exp_zero]
  refine ⟨h2, ?_⟩
  rw [h2]
  intro hc
  rw [List.chain'_cons] at hc
  exact lt_irrefl 1 hc.1

/-- C7 (amended): the stored scale-factor sequence is non-decreasing:
appending a segment whose t-values are strictly increasing and whose
first exp-value is at least the last stored value keeps the trajectory
monotone (non-strictly); strictness fails exactly at segment starts,
because the t-grid linspace(x0, xf, n) handed to the integrator begins
at x0, the last stored point. -/
theorem C7_scale_factor_monotone (Rs ts : List ℝ)
    (hRs : List.Chain' (· ≤ ·) Rs) (hts : List.Chain' (· < ·) ts)
    (hjoin : ∀ r ∈ Rs.getLast?, ∀ t ∈ ts.head?, r ≤ Real.exp t) :
    List.Chain' (· ≤ ·) (updateR Rs ts) ∧
    ∀ x0 xf : ℝ, ∀ npoints : ℕ, 2 ≤ npoints →
      (linspace x0 xf npoints).head? = some x0 := by
  constructor
  · refine List.Chain'.append hRs ?_ ?_
    · exact List.chain'_map_of_chain' Real.exp
        (fun a b hab => (Real.exp_lt_exp.2 hab).le) hts
    · intro r hr y hy
      rw [List.head?_map] at hy
      obtain ⟨t0, ht0, rfl⟩ := Option.map_eq_some'.1 hy
      exact hjoin r hr t0 ht0
  · intro x0 xf npoints hn
    obtain ⟨n, rfl⟩ : ∃ n, npoints = n + 1 := ⟨npoints - 1, by omega⟩
    rw [linspace, List.range_succ_eq_map]
    simp

/-- Witness for C7 (amended) at Rs = [1], ts = [2, 3]. -/
theorem C7_scale_factor_monotone_witness :
    List.Chain' (· ≤ ·) [(1:ℝ)] ∧ List.Chain' (· < ·) [(2:ℝ), 3] ∧
    (List.Chain' (· ≤ ·) (updateR [(1:ℝ)] [2, 3]) ∧
      ∀ x0 xf : ℝ, ∀ npoints : ℕ, 2 ≤ npoints →
        (linspace x0 xf npoints).head? = some x0) := by
  have h1 : List.Chain' (· ≤ ·) [(1:ℝ)] := List.chain'_singleton 1
  have h2 : List.Chain' (· < ·) [(2:ℝ), 3] := by
    rw [List.chain'_cons]
    exact ⟨by norm_num, List.chain'_singleton 3⟩
  have h3 : ∀ r ∈ ([(1:ℝ)]).getLast?, ∀ t ∈ ([(2:ℝ), 3]).head?, r ≤ Real.exp t := by
    intro r hr t ht
    simp only [List.getLast?_singleton, Option.mem_def, Option.some_inj] at hr
    simp only [List.head?_cons, Option.mem_def, Option.some_inj] at ht
    subst hr; subst ht
    have := Real.add_one_le_exp (2:ℝ)
    linarith
  exact ⟨h1, h2, C7_scale_factor_monotone [1] [2, 3] h1 h2 h3⟩

/-- Auxiliary bound: Apery's constant is at most the Basel constant
pi^2/6 (termwise comparison of the two series). -/
theorem zeta3_le_basel : Zeta3 ≤ Real.pi ^ 2 / 6 := by
  have hbasel : HasSum (fun n : ℕ => (1:ℝ) / (n : ℝ) ^ 2) (Real.pi ^ 2 / 6) :=
    hasSum_zeta_two
  have hshift : HasSum (fun n : ℕ => (1:ℝ) / ((n : ℝ) + 1) ^ 2) (Real.pi ^ 2 / 6) := by
    have h := (hasSum_nat_add_iff' 1).2 hbasel
    simp only [Finset.range_one, Finset.sum_singleton, Nat.cast_zero] at h
    norm_num at h
    convert h using 1
    funext n
    ring
  have hsum3 : Summable (fun n : ℕ => (1:ℝ) / ((n : ℝ) + 1) ^ 3) := by
    have hs : Summable (fun n : ℕ => (1:ℝ) / (n : ℝ) ^ 3) :=
      (@Real.summable_one_div_nat_pow 3).2 (by norm_num)
    have h := (summable_nat_add_iff 1).2 hs
    convert h using 1
    funext n
    push_cast
    ring
  have hterm : ∀ n : ℕ, (1:ℝ) / ((n : ℝ) + 1) ^ 3 ≤ 1 / ((n : ℝ) + 1) ^ 2 := by
    intro n
    have h0 : (0:ℝ) ≤ (n : ℝ) := Nat.cast_nonneg n
    have h1 : (1:ℝ) ≤ (n : ℝ) + 1 := by linarith
    have h2 : ((n : ℝ) + 1) ^ 2 ≤ ((n : ℝ) + 1) ^ 3 :=
      pow_le_pow_right₀ h1 (by norm_num)
    exact one_div_le_one_div_of_le (by positivity) h2
  calc Zeta3 ≤ tsum (fun n : ℕ => (1:ℝ) / ((n : ℝ) + 1) ^ 2) :=
        tsum_le_tsum hterm hsum3 hshift.summable
    _ = Real.pi ^ 2 / 6 := hshift.tsum_eq

/-- Auxiliary bound: Zeta3 is at most 2. -/
theorem zeta3_le_two : Zeta3 ≤ 2 := by
  have h := zeta3_le_basel
  have hpi : Real.pi < 3.15 := Real.pi_lt_d2
  nlinarith [Real.pi_pos]

/-- C5 counterexample: at sigv = 1, T = pi, neq = 7, n = 3, H = 1, the
live solver's self-annihilation contribution is the quadratic value 40
for every kind, while the claimed linearized weakthermal form
sigv*nrel*(neq-n)/H = 4*Zeta3*pi is below 26; so the weakthermal
contribution of the program is not the linearized form. -/
theorem C5_counterexample :
    annTermSolver 1 7 3 1 = 40 ∧
    annTermEqs "weakthermal" 1 Real.pi 7 3 1 < 40 ∧
    annTermSolver 1 7 3 1 ≠ annTermEqs "weakthermal" 1 Real.pi 7 3 1 := by
  have h40 : annTermSolver 1 7 3 1 = 40 := by
    rw [annTermSolver]; norm_num
  have hlt : annTermEqs "weakthermal" 1 Real.pi 7 3 1 < 40 := by
    rw [annTermEqs, if_pos rfl]
    have hne := Real.pi_ne_zero
    have hval : (1:ℝ) * (Zeta3 * Real.pi ^ 3 / Real.pi ^ 2) * (7 - 3) / 1
        = 4 * (Zeta3 * Real.pi) := by
      field_simp
      ring
    rw [hval]
    have hz := zeta3_le_two
    have hpi : Real.pi < 3.15 := Real.pi_lt_d2
    nlinarith [Real.pi_pos, mul_nonneg (sub_nonneg.2 hz) Real.pi_pos.le]
  exact ⟨h40, hlt, (lt_of_lt_of_eq hlt h40.symm).ne'⟩

/-- C5 (amended): in the legacy BoltzEqs.rhs the weakthermal kind gets
the linearized equilibrium-relative form sigv*(Zeta3*T^3/pi^2)*(neq-n)/H
and every other kind the quadratic form sigv*(neq^2-n^2)/H, exactly as
the claim states; the live BoltzSolution.rhs instead applies the
quadratic form sigmaV*(neq-n)*(neq+n)/H = sigmaV*(neq^2-n^2)/H to every
kind, with no branch on the component kind. -/
theorem C5_annihilation_forms (sigv T neq n H : ℝ) :
    annTermEqs "weakthermal" sigv T neq n H
      = sigv * (Zeta3 * T ^ 3 / Real.pi ^ 2) * (neq - n) / H ∧
    annTermEqs "thermal" sigv T neq n H = sigv * (neq ^ 2 - n ^ 2) / H ∧
    annTermSolver sigv neq n H = sigv * (neq ^ 2 - n ^ 2) / H := by
  refine ⟨by rw [annTermEqs, if_pos rfl], ?_, by rw [annTermSolver]; ring⟩
  rw [annTermEqs, if_neg (by decide)]

/-- C8: constructing a Component with a kind outside the three
recognized kinds, or with a mass argument that is neither a number nor
a function of temperature, fails at construction with a configuration
error and produces no instance. -/
theorem C8_invalid_construction_fails (label ctype : String) (dof : ℤ)
    (mass : MassArg) (decays : DecaysArg) (sv src ca : ℝ → ℝ)
    (h : ctype ∉ Types ∨ mass = MassArg.other) :
    Component.init label ctype dof mass decays sv src ca
      = Except.error ConfigError.configError := by
  rcases h with h | h
  · rw [Component.init, if_neg h]
  · subst h
    rw [Component.init]
    by_cases hc : ctype ∈ Types
    · rw [if_pos hc]
      rfl
    · rw [if_neg hc]

/-- Witness for C8 with the unrecognized kind 'foo'. -/
theorem C8_invalid_construction_fails_witness :
    ("foo" ∉ Types ∨ MassArg.floatVal 5 = MassArg.other) ∧
    Component.init "x" "foo" 1 (MassArg.floatVal 5)
        (DecaysArg.decayList default) (fun _ => 0) (fun _ => 0) (fun _ => 0)
      = Except.error ConfigError.configError :=
  ⟨Or.inl (by decide),
   C8_invalid_construction_fails "x" "foo" 1 (MassArg.floatVal 5)
     (DecaysArg.decayList default) (fun _ => 0) (fun _ => 0) (fun _ => 0)
     (Or.inl (by decide))⟩

/-- C9 counterexample: a file written by BoltzSolution.printData for a
single component 'DM' with one data row contains no 'Header' marker, so
getDataFrom reconstructs an empty tabulated block even though a parser
that returns a nonempty reconstruction on every input was supplied;
the serialize-then-parse round trip does not reproduce the time
series. -/
theorem C9_counterexample :
    fileContains "Header"
      (solverPrintDataLines ["x", "T", "R", "S", "n_DM", "rho_DM"]
        ["1.0000E+00 1.0000E+04 1.0000E+00 8.5000E+13 1.0000E+10 5.0000E+12"]) = false ∧
    getDataFromDataBlock
      (solverPrintDataLines ["x", "T", "R", "S", "n_DM", "rho_DM"]
        ["1.0000E+00 1.0000E+04 1.0000E+00 8.5000E+13 1.0000E+10 5.0000E+12"])
      anyParse = [] ∧
    anyParse
      (solverPrintDataLines ["x", "T", "R", "S", "n_DM", "rho_DM"]
        ["1.0000E+00 1.0000E+04 1.0000E+00 8.5000E+13 1.0000E+10 5.0000E+12"]) ≠ [] := by
  refine ⟨by decide, ?_, by simp [anyParse]⟩
  rw [getDataFromDataBlock, if_neg]
  simp only [Bool.not_eq_true]
  decide

/-- C9 (amended): getDataFrom reconstructs the tabulated time-series
block only from files containing the 'Header' marker.  Files written by
the legacy AuxFuncs.printData contain the marker line '# Header:' and
the block is handed to the row parser; files written by
BoltzSolution.printData carry no such marker, and for any such file the
reconstructed tabulated block is empty, whatever the parser. -/
theorem C9_data_block_needs_marker (labels rows : List String)
    (parse : List String → List (String × List ℝ)) :
    getDataFromDataBlock (legacyPrintDataLines labels rows) parse
      = parse (legacyPrintDataLines labels rows) ∧
    (fileContains "Header" (solverPrintDataLines labels rows) = false →
      getDataFromDataBlock (solverPrintDataLines labels rows) parse = []) := by
  constructor
  · rw [getDataFromDataBlock, if_pos]
    rw [legacyPrintDataLines]
    show (_ :: _ :: _ :: _).any _ = true
    rw [List.any_cons, List.any_cons]
    have hmark : lineContains "Header" "# Header:" = true := by decide
    rw [hmark]
    simp
  · intro h
    rw [getDataFromDataBlock, if_neg]
    simp [h]

/-- Witness for C9 (amended) at a one-column file with one row. -/
theorem C9_data_block_needs_marker_witness :
    fileContains "Header" (solverPrintDataLines ["x"] ["1.0000E+00"]) = false ∧
    getDataFromDataBlock (legacyPrintDataLines ["x"] ["1.0000E+00"]) anyParse
      = anyParse (legacyPrintDataLines ["x"] ["1.0000E+00"]) ∧
    getDataFromDataBlock (solverPrintDataLines ["x"] ["1.0000E+00"]) anyParse = [] :=
  ⟨by decide,
   (C9_data_block_needs_marker ["x"] ["1.0000E+00"] anyParse).1,
   (C9_data_block_needs_marker ["x"] ["1.0000E+00"] anyParse).2 (by decide)⟩

/-- C10: Component.hasDecayed returns False for every component in
every state, regardless of its width, densities, active flag or
recorded decay temperature (the body is the constant False). -/
theorem C10_hasDecayed_always_false (c : Component) : c.hasDecayed = false := rfl

/-- C1: at every evaluation of the right-hand side, the entropy
derivative equals the sum over the active components of
BRX_i*width_i*mass_i*(n_i - N_i^th)*exp(3x - NS)/(H*T*normS); in
particular it is exactly zero whenever every active component has zero
width at the current temperature (entropy conservation). -/
theorem C1_dNS_entropy {m : ℕ} (inp : RHSInput m) :
    inp.dNS = ∑ i ∈ Finset.univ.filter (fun i => inp.isActive i = true),
        inp.BRX i * inp.widths i * inp.masses i * (inp.nEff i - inp.NXth i)
          * Real.exp (3 * inp.x - inp.NS) / (inp.H * inp.T * inp.normS) ∧
    ((∀ i, inp.isActive i = true → inp.widths i = 0) → inp.dNS = 0) := by
  constructor
  · rw [RHSInput.dNS, Finset.sum_filter, div_eq_mul_inv, Finset.sum_mul, Finset.sum_mul]
    refine Finset.sum_congr rfl fun i _ => ?_
    by_cases h : inp.isActive i = true
    · simp only [h, if_true]
      rw [div_eq_mul_inv]
      ring
    · simp [h]
  · intro hw
    have hz : (∑ i, (if inp.isActive i then (1:ℝ) else 0) * inp.BRX i * inp.widths i
        * inp.masses i * (inp.nEff i - inp.NXth i)) = 0 :=
      Finset.sum_eq_zero fun i _ => by
        by_cases h : inp.isActive i = true
        · rw [hw i h]
          ring
        · simp [h]
    rw [RHSInput.dNS, hz, zero_mul, zero_div]

/-- Witness for C1 at the one-component zero-width input. -/
theorem C1_dNS_entropy_witness :
    C1inp.widths 0 = 0 ∧ C1inp.dNS = 0 :=
  ⟨rfl, (C1_dNS_entropy C1inp).2 fun _ _ => rfl⟩

/-- C2 (code-bug exhibit): with component 1 inactive (width 1, total
branching 1 into the active component 0), the derivative dN_0 returned
for the active component changes when only the inactive component's
log-density variable Ni[1] changes (from 0 to log 2): the
decay-injection einsum of boltzSolver.py line 303 carries no active
mask on the source index j, contradicting the rhs docstring and the
spec, which both state that an inactive component contributes nothing
to the other components' equations (the legacy boltzEqs.rhs line 121
skips inactive sources). -/
theorem C2_inactive_species_injects :
    (injInput 0).isActive 1 = false ∧
    (injInput 0).dN 0 ≠ (injInput (Real.log 2)).dN 0 := by
  constructor
  · rfl
  · simp [RHSInput.dN, RHSInput.RHS_N, injInput, Fin.sum_univ_two,
      RHSInput.nEff, RHSInput.nUnforced, RHSInput.RiEff, RHSInput.rNeqM,
      RHSInput.sigVijM, RHSInput.sigVjjM, RHSInput.cRateM, RHSInput.BeffM,
      RHSInput.NXYthM, RHSInput.H, Hfunc, RHSInput.rhoEff, Real.exp_zero,
      Real.exp_log]
    have h8 : (0:ℝ) < Real.sqrt 8 := Real.sqrt_pos.2 (by norm_num)
    have hpi : (0:ℝ) < Real.sqrt Real.pi := Real.sqrt_pos.2 Real.pi_pos
    have h3 : (0:ℝ) < Real.sqrt 3 := Real.sqrt_pos.2 (by norm_num)
    have hMP : (0:ℝ) < MP := by norm_num [MP]
    intro heq
    field_simp [h8.ne', hpi.ne', h3.ne', hMP.ne'] at heq
    nlinarith [mul_pos h8 hpi, mul_pos (mul_pos h8 hpi) hMP, h3]

end BoltzmannEqs
